import Mathlib

/-!
Verification development for the `bootmgr` UEFI boot-entry chooser
(`src/main.rs`).  The definitions below are a shallow embedding of the
program: bytes are `Nat` values reduced modulo 256 where the code reads
`u8`s, UTF-16 code units are `Nat` values below 2^16, strings are Lean
`String`s, and a Rust panic of a modelled operation is represented by
`Option.none` (noted at each definition where it applies).
-/

/-! ## UTF-16 description decoding (`char16_to_string`, src/main.rs lines 32-55) -/

/-- The code-unit assembly loop of `char16_to_string`: take two bytes at a
time, assemble a `u16` little-endian (`(upper as u16) << 8 | lower`, so the
low byte comes first), stop at a zero code unit or when fewer than two bytes
remain, and collect the nonzero units that were pushed to `out`. -/
def collectUnits : List Nat → List Nat
  | lo :: hi :: rest =>
    let u := (hi % 256) * 256 + (lo % 256)
    if u = 0 then [] else u :: collectUnits rest
  | _ => []

/-- The byte offset `i` returned by `char16_to_string`: the loop adds 2 at
the start of every iteration, including the final iteration that hits the
zero terminator or runs out of input. -/
def char16Len : List Nat → Nat
  | lo :: hi :: rest =>
    if (hi % 256) * 256 + (lo % 256) = 0 then 2 else 2 + char16Len rest
  | _ => 2

/-- Rust `std::char::decode_utf16` over a list of `u16` code units, with a
decoded scalar value as `some` and a `DecodeUtf16Error` as `none`: a
non-surrogate unit decodes to itself; a low surrogate (or a high surrogate
not followed by a low surrogate, or at the end of input) is an error; a
high surrogate followed by a low surrogate combines into one supplementary
scalar.  After an error on a lone high surrogate the following unit is
re-examined, exactly as the Rust iterator buffers it. -/
def decodeUtf16 : List Nat → List (Option Nat)
  | [] => []
  | u :: rest =>
    if u < 0xD800 ∨ 0xDFFF < u then some u :: decodeUtf16 rest
    else if 0xDC00 ≤ u then none :: decodeUtf16 rest
    else
      match rest with
      | [] => [none]
      | u2 :: rest2 =>
        if 0xDC00 ≤ u2 ∧ u2 ≤ 0xDFFF then
          some (0x10000 + (u - 0xD800) * 0x400 + (u2 - 0xDC00)) :: decodeUtf16 rest2
        else
          none :: decodeUtf16 (u2 :: rest2)

/-- The two maps applied to the decode result in `char16_to_string`: the
first replaces every decode error by a space via `unwrap_or` (scalar 32),
the second keeps a successfully decoded character only when `is_ascii`
holds and otherwise replaces it by a space. -/
def charsOfUnits (us : List Nat) : List Char :=
  ((decodeUtf16 us).map (fun r => r.getD 32)).map
    (fun c => if c < 128 then Char.ofNat c else ' ')

/-- `char16_to_string` from src/main.rs lines 32-55: returns the decoded,
space-substituted description together with the byte offset just past the
consumed region. -/
def char16_to_string (buf : List Nat) : String × Nat :=
  (⟨charsOfUnits (collectUnits buf)⟩, char16Len buf)

/-- Little-endian encoding of a list of `u16` code units into bytes, low
byte first; used to state round-trip properties of the assembly loop. -/
def unitsToBytes (us : List Nat) : List Nat :=
  us.flatMap (fun u => [u % 256, u / 256])

/-! ## Device-path classification (`Entry::new` loop, src/main.rs lines 74-94) -/

/-- A decoded device-path node as the classification loop sees it: either a
file-path media node carrying its path text, or any other node carrying
only the debug text of its type tag. -/
inductive DevNode where
  | filePathMedia : String → DevNode
  | otherNode : String → DevNode
deriving DecidableEq

/-- ASCII lowercasing of one character, modelling `str::to_lowercase` on
the ASCII range (the range that can ever match the ASCII marker strings). -/
def lowerChar (c : Char) : Char :=
  if 'A' ≤ c ∧ c ≤ 'Z' then Char.ofNat (c.toNat + 32) else c

/-- Lowercase a whole string. -/
def lowerStr (s : String) : String := ⟨s.data.map lowerChar⟩

/-- Rust `str::contains` for a literal needle: some suffix of the haystack
starts with the needle. -/
def strContains (hay needle : String) : Bool :=
  hay.data.tails.any (fun t => needle.data.isPrefixOf t)

/-- The marker test of the classification loop (src/main.rs lines 82-84):
note the source tests for `\efi\boot\bootia.efi`, not `bootia32.efi`. -/
def containsAnyMarker (s : String) : Bool :=
  strContains s "\\efi\\boot\\bootx64.efi" ||
  strContains s "\\efi\\boot\\bootia.efi" ||
  strContains s "\\efi\\boot\\bootaa64.efi"

/-- The `for node in device_path.node_iter()` loop of `Entry::new`
(src/main.rs lines 74-94), with `acc = (out_path, display_default)`: a
file-path node appends its lowercased path and overwrites
`display_default` (false iff a marker matches); any other node appends its
type tag and leaves `display_default` alone. -/
def classifyFold (acc : List String × Bool) : List DevNode → List String × Bool
  | [] => acc
  | DevNode.filePathMedia p :: rest =>
    let lowercase := lowerStr p
    let dd := !(containsAnyMarker lowercase)
    classifyFold (acc.1 ++ [lowercase], dd) rest
  | DevNode.otherNode tag :: rest =>
    classifyFold (acc.1 ++ [tag], acc.2) rest

/-- The classification phase of `Entry::new`, starting from
`display_default = false` and an empty `out_path`. -/
def classifyNodes (nodes : List DevNode) : List String × Bool :=
  classifyFold ([], false) nodes

/-- The path text of the last file-path media node of a device path, when
one exists. -/
def lastFileNodeText : List DevNode → Option String
  | [] => none
  | DevNode.filePathMedia p :: rest =>
    match lastFileNodeText rest with
    | some q => some q
    | none => some p
  | DevNode.otherNode _ :: rest => lastFileNodeText rest

/-! ## Numeric id extraction (`Entry::new`, src/main.rs lines 96-101) -/

/-- The value of one hexadecimal digit, as `char::to_digit(16)` accepts
them. -/
def hexDigitVal (c : Char) : Option Nat :=
  if '0' ≤ c ∧ c ≤ '9' then some (c.toNat - 48)
  else if 'a' ≤ c ∧ c ≤ 'f' then some (c.toNat - 87)
  else if 'A' ≤ c ∧ c ≤ 'F' then some (c.toNat - 55)
  else none

/-- Accumulate hexadecimal digits with the `u16` overflow check of
`from_str_radix`: any non-digit or any intermediate value above `0xFFFF`
fails. -/
def parseHexDigits (digits : List Char) : Option Nat :=
  digits.foldl
    (fun acc c =>
      match acc, hexDigitVal c with
      | some a, some d => if a * 16 + d < 65536 then some (a * 16 + d) else none
      | _, _ => none)
    (some 0)

/-- Rust `u16::from_str_radix(s, 16)`: an optional leading sign followed by
at least one hexadecimal digit; a `-` sign only parses when the digits
denote zero. -/
def u16FromStrRadix16 (s : String) : Option Nat :=
  let p : Bool × List Char :=
    match s.data with
    | '+' :: rest => (false, rest)
    | '-' :: rest => (true, rest)
    | cs => (false, cs)
  if p.2.isEmpty then none
  else
    match parseHexDigits p.2 with
    | none => none
    | some v => if p.1 then (if v = 0 then some 0 else none) else some v

/-- The id-extraction phase of `Entry::new` (src/main.rs lines 96-101):
`var.to_string().split_off(4)` keeps the suffix after the first four
characters (`none` models the panic of `split_off` on a too-short name),
then `u16::from_str_radix(&boot_id, 16)` gives the id, defaulting to 0 on
parse failure, while `id_string` keeps the suffix verbatim. -/
def extract_id (var : String) : Option (Nat × String) :=
  if var.data.length < 4 then none
  else
    let boot_id : String := ⟨var.data.drop 4⟩
    some ((u16FromStrRadix16 boot_id).getD 0, boot_id)

/-! ## The header/description slicing of `Entry::new` (src/main.rs lines 67-72) -/

/-- The slice operations at the start of `Entry::new`: `&buf[6..]` (written
`(32+16)/8` in the source) panics when the buffer is shorter than 6 bytes;
after decoding the description, `&buf[desc_end_offset..]` panics when
`desc_end_offset = 6 + i` lies past the end of the buffer (which happens
exactly when no zero terminator was found).  `none` models such a panic;
`some` returns the description and the bytes handed to the device-path
walk. -/
def entryDescPhase (buf : List Nat) : Option (String × List Nat) :=
  if buf.length < 6 then none
  else
    let r := char16_to_string (buf.drop 6)
    if buf.length < 6 + r.2 then none
    else some (r.1, buf.drop (6 + r.2))

/-! ## The variable-name filter (`main`, src/main.rs line 265) -/

/-- The filter regex `^Boot\d\d\d\d$` of `main`: the name is exactly
`Boot` followed by four decimal digits (`\d`). -/
def boot_xxxx_match (s : String) : Bool :=
  s.data.length = 8 && "Boot".data.isPrefixOf s.data &&
    (s.data.drop 4).all Char.isDigit

/-- A hexadecimal digit, for stating what the spec asks of the filter. -/
def hexDigitChar (c : Char) : Bool :=
  c.isDigit || ('a' ≤ c && c ≤ 'f') || ('A' ≤ c && c ≤ 'F')

/-- The name shape the spec requires the filter to accept: `Boot` followed
by exactly four hexadecimal digits. -/
def isBootHexName (s : String) : Bool :=
  s.data.length = 8 && "Boot".data.isPrefixOf s.data &&
    (s.data.drop 4).all hexDigitChar

/-! ## Boot entries and the menu state machine (src/main.rs lines 57-64, 125-135, 161-262) -/

/-- The `Entry` struct (src/main.rs lines 57-64); `id` is a `u16`, kept as
a `Nat` that the id parser bounds by `0xFFFF`. -/
structure Entry where
  id : Nat
  id_string : String
  description : String
  path : List String
  display_default : Bool
deriving DecidableEq

/-- `MenuChoice` (src/main.rs lines 125-129): a real boot entry or the
`Menu` sentinel row opening the advanced view. -/
inductive MenuChoice where
  | entry : Entry → MenuChoice
  | menu : MenuChoice
deriving DecidableEq

/-- `MenuType` (src/main.rs lines 131-135). -/
inductive MenuType where
  | default : MenuType
  | advanced : MenuType
deriving DecidableEq

/-- The navigation events the `menu` loop consumes (the `EzEvent` variants
it matches on); `other` stands for every variant caught by the `_ => {}`
arm. -/
inductive EzEvent where
  | directionDown : EzEvent
  | directionUp : EzEvent
  | south : Bool → EzEvent
  | other : EzEvent

/-- The mutable state of the `menu` loop (src/main.rs lines 174-179 and
192): `chosen`, `pos`, the default-view rows `menu_items`, the
advanced-view rows `all_items`, the tracked value `cur_choice`, and the
active view `what_to_display`.  The two row lists never change after
initialisation but are carried in the state so that the frame of each
transition is explicit. -/
structure MenuState where
  chosen : Bool
  pos : Nat
  menu_items : List MenuChoice
  all_items : List MenuChoice
  cur_choice : Option MenuChoice
  what_to_display : MenuType
deriving DecidableEq

/-- The row list the loop indexes into (src/main.rs lines 195-198). -/
def curMenu (s : MenuState) : List MenuChoice :=
  match s.what_to_display with
  | MenuType.default => s.menu_items
  | MenuType.advanced => s.all_items

/-- The initialisation of the `menu` loop (src/main.rs lines 174-192): for
each entry, a default candidate is appended to `menu_items` and becomes
`cur_choice` if it is still `None`; every entry is appended to
`all_items`; finally the `Menu` sentinel is appended to `menu_items`. -/
def menuInitStep (acc : List MenuChoice × List MenuChoice × Option MenuChoice)
    (entry : Entry) : List MenuChoice × List MenuChoice × Option MenuChoice :=
  if entry.display_default then
    let cc := match acc.2.2 with
      | none => some (MenuChoice.entry entry)
      | some c => some c
    (acc.1 ++ [MenuChoice.entry entry], acc.2.1 ++ [MenuChoice.entry entry], cc)
  else
    (acc.1, acc.2.1 ++ [MenuChoice.entry entry], acc.2.2)

def menuInit (choices : List Entry) : MenuState :=
  let acc := choices.foldl menuInitStep ([], [], none)
  { chosen := false
    pos := 0
    menu_items := acc.1 ++ [MenuChoice.menu]
    all_items := acc.2.1
    cur_choice := acc.2.2
    what_to_display := MenuType.default }

/-- One iteration of the event handling `match rx.recv()` (src/main.rs
lines 227-254): `DirectionDown` advances the cursor when a row exists at
`pos + 1`; `South(true)` either terminates (`chosen = true`) when the
tracked value differs from the sentinel or switches the view to advanced;
`South(false)` does nothing; `DirectionUp` first checks `pos > 0` (the
comment `avoid overflow panics`) and then moves up when a row exists at
`pos - 1`; every other event does nothing. -/
def menuStep (s : MenuState) (e : EzEvent) : MenuState :=
  match e with
  | EzEvent.directionDown =>
    match (curMenu s)[s.pos + 1]? with
    | some new => { s with pos := s.pos + 1, cur_choice := some new }
    | none => s
  | EzEvent.south val =>
    if val = true then
      if s.cur_choice ≠ some MenuChoice.menu then
        { s with chosen := true }
      else
        { s with what_to_display := MenuType.advanced }
    else s
  | EzEvent.directionUp =>
    if s.pos > 0 then
      match (curMenu s)[s.pos - 1]? with
      | some new => { s with pos := s.pos - 1, cur_choice := some new }
      | none => s
    else s
  | EzEvent.other => s

/-- The `while !chosen` loop (src/main.rs line 194) replayed over a
scripted event sequence: events are consumed until `chosen` becomes true.
On exit the source returns `cur_choice.unwrap()`, so a terminal state with
`cur_choice = none` makes the process panic. -/
def menuRun (s : MenuState) : List EzEvent → MenuState
  | [] => s
  | e :: rest => if s.chosen then s else menuRun (menuStep s e) rest

/-- An entry that is not a default candidate, as decoded from a fallback
loader path. -/
def fallbackEntry : Entry :=
  { id := 1, id_string := "0001", description := "Fallback"
    path := ["\\efi\\boot\\bootx64.efi"], display_default := false }

/-- A default-candidate entry. -/
def ubuntuEntry : Entry :=
  { id := 2, id_string := "0002", description := "ubuntu"
    path := ["\\efi\\ubuntu\\grubx64.efi"], display_default := true }

/-- A second default-candidate entry. -/
def fedoraEntry : Entry :=
  { id := 3, id_string := "0003", description := "fedora"
    path := ["\\efi\\fedora\\shimx64.efi"], display_default := true }

/-- The menu state after initialising with the two default candidates:
three default-view rows (ubuntu, fedora, sentinel), cursor 0, tracked
value ubuntu. -/
def demoInitState : MenuState := menuInit [ubuntuEntry, fedoraEntry]

/-- The same session after moving the cursor down twice, now sitting on
the sentinel row. -/
def demoSentinelState : MenuState :=
  menuRun demoInitState [EzEvent.directionDown, EzEvent.directionDown]

/-! ## Helper lemmas -/

/-- Evaluating `Char.ofNat` on an ASCII scalar. -/
theorem toNat_ofNat_of_lt (n : Nat) (h : n < 128) : (Char.ofNat n).toNat = n := by
  have hv : Nat.isValidChar n := Or.inl (by omega)
  simp [Char.ofNat, hv, Char.ofNatAux, Char.toNat, UInt32.toNat]

/-- Every character the description decoder emits is ASCII. -/
theorem charsOfUnits_ascii (us : List Nat) :
    ∀ c ∈ charsOfUnits us, c.toNat < 128 := by
  intro c hc
  simp only [charsOfUnits, List.mem_map] at hc
  obtain ⟨r, _, hr⟩ := hc
  subst hr
  by_cases h : r < 128
  · rw [if_pos h, toNat_ofNat_of_lt _ h]
    exact h
  · rw [if_neg h]
    decide

/-- Unfolding one unit of the little-endian encoding. -/
theorem unitsToBytes_cons (u : Nat) (us : List Nat) :
    unitsToBytes (u :: us) = u % 256 :: u / 256 :: unitsToBytes us := by
  simp [unitsToBytes]

/-- The assembly loop recovers the code units from their little-endian
encoding and stops at the appended zero terminator, whatever bytes
follow. -/
theorem collectUnits_enc (us : List Nat) (rest : List Nat)
    (h : ∀ u ∈ us, u ≠ 0 ∧ u < 65536) :
    collectUnits (unitsToBytes us ++ 0 :: 0 :: rest) = us := by
  induction us with
  | nil => simp [unitsToBytes, collectUnits]
  | cons u us ih =>
    obtain ⟨hu0, hu16⟩ := h u (List.mem_cons_self u us)
    have hrec := ih (fun v hv => h v (List.mem_cons_of_mem u hv))
    rw [unitsToBytes_cons, List.cons_append, List.cons_append, collectUnits]
    have hassemble : u / 256 % 256 * 256 + u % 256 % 256 = u := by omega
    rw [hassemble, if_neg hu0, hrec]

/-- The byte-offset computation also stops at the appended terminator. -/
theorem char16Len_enc (us : List Nat) (rest : List Nat)
    (h : ∀ u ∈ us, u ≠ 0 ∧ u < 65536) :
    char16Len (unitsToBytes us ++ 0 :: 0 :: rest) = 2 * us.length + 2 := by
  induction us with
  | nil => simp [unitsToBytes, char16Len]
  | cons u us ih =>
    obtain ⟨hu0, hu16⟩ := h u (List.mem_cons_self u us)
    have hrec := ih (fun v hv => h v (List.mem_cons_of_mem u hv))
    rw [unitsToBytes_cons, List.cons_append, List.cons_append, char16Len]
    have hassemble : u / 256 % 256 * 256 + u % 256 % 256 = u := by omega
    rw [hassemble, if_neg hu0, hrec]
    simp only [List.length_cons]
    ring

/-- The `display_default` flag computed by the classification loop is the
verdict of the last file-path node, or the flag of the accumulator if there is
none. -/
theorem classifyFold_snd (nodes : List DevNode) :
    ∀ acc, (classifyFold acc nodes).2 =
      match lastFileNodeText nodes with
      | some p => !(containsAnyMarker (lowerStr p))
      | none => acc.2 := by
  induction nodes with
  | nil => intro acc; rfl
  | cons node rest ih =>
    intro acc
    cases node with
    | filePathMedia p =>
      simp only [classifyFold, lastFileNodeText, ih]
      cases lastFileNodeText rest <;> rfl
    | otherNode tag =>
      simp only [classifyFold, lastFileNodeText, ih]

/-- When no entry is a default candidate, the initialisation fold only
extends `all_items` and leaves `menu_items` and `cur_choice` untouched. -/
theorem menuInit_fold_nodefault (entries : List Entry)
    (h : ∀ en ∈ entries, en.display_default = false) :
    ∀ acc, entries.foldl menuInitStep acc =
      (acc.1, acc.2.1 ++ entries.map MenuChoice.entry, acc.2.2) := by
  induction entries with
  | nil => intro acc; simp
  | cons en entries ih =>
    intro acc
    have hd := h en (List.mem_cons_self en entries)
    have hrec := ih (fun v hv => h v (List.mem_cons_of_mem en hv))
    rw [List.foldl_cons]
    rw [hrec]
    simp [menuInitStep, hd]

/-- If a step of the menu loop sets `chosen`, the tracked value was not the
sentinel and is carried over unchanged into the terminal state. -/
theorem menuStep_exit (s : MenuState) (e : EzEvent) (h0 : s.chosen = false)
    (h1 : (menuStep s e).chosen = true) :
    (menuStep s e).cur_choice = s.cur_choice ∧
      s.cur_choice ≠ some MenuChoice.menu := by
  cases e with
  | directionDown =>
    simp only [menuStep] at h1 ⊢
    cases hg : (curMenu s)[s.pos + 1]? <;> simp [hg] at h1 <;> simp_all
  | directionUp =>
    simp only [menuStep] at h1 ⊢
    by_cases hp : s.pos > 0
    · cases hg : (curMenu s)[s.pos - 1]? <;> simp [hp, hg] at h1 <;> simp_all
    · simp [hp] at h1; simp_all
  | south val =>
    simp only [menuStep] at h1 ⊢
    by_cases hv : val = true
    · by_cases hm : s.cur_choice ≠ some MenuChoice.menu
      · simp [hv, hm]
      · simp [hv, hm] at h1; simp_all
    · simp [hv] at h1; simp_all
  | other =>
    simp only [menuStep] at h1
    simp_all

/-- A run of the menu loop from an already-terminated state consumes no
events. -/
theorem menuRun_of_chosen (s : MenuState) (evs : List EzEvent)
    (h : s.chosen = true) : menuRun s evs = s := by
  cases evs with
  | nil => rfl
  | cons e rest => simp [menuRun, h]

/-- Session-level version of `menuStep_exit`: a run that ends in a
terminated state never holds the sentinel as its tracked value. -/
theorem menuRun_exit (evs : List EzEvent) : ∀ s : MenuState,
    s.chosen = false → (menuRun s evs).chosen = true →
      (menuRun s evs).cur_choice ≠ some MenuChoice.menu := by
  induction evs with
  | nil => intro s h0 h1; rw [menuRun] at h1; rw [menuRun]; simp_all
  | cons e rest ih =>
    intro s h0 h1
    rw [menuRun, if_neg (by simp [h0])] at h1 ⊢
    by_cases hc : (menuStep s e).chosen = true
    · rw [menuRun_of_chosen _ _ hc] at h1 ⊢
      exact (menuStep_exit s e h0 h1).1 ▸ (menuStep_exit s e h0 h1).2
    · exact ih (menuStep s e) (by simp_all) h1

/-! ## Claim theorems -/

/-- C1 (code_bug evidence): the claim says decoding never panics, but the
modelled slice operations of `Entry::new` do panic (`none`): a 5-byte
buffer is too short for `&buf[6..]`, and a buffer whose description region
has no zero terminator (even a well-formed 6-byte header alone) makes
`desc_end_offset` point past the end of the buffer.  A buffer with a
terminated description decodes fine. -/
theorem entryNew_truncated_buffer_panics :
    entryDescPhase [1, 0, 0, 0, 0] = none ∧
    entryDescPhase [0, 0, 0, 0, 0, 0] = none ∧
    entryDescPhase [0, 0, 0, 0, 0, 0, 65, 0, 0, 0] = some ("A", []) :=
  ⟨by decide, by decide, by decide⟩

/-- C2 counterexample: with a single decoded entry that is not a default
candidate, the default view holds only the sentinel row, yet a confirm
with a true payload in the initial state terminates the loop (with an
absent tracked value, in the Default view) instead of switching to the
Advanced view. -/
theorem menu_no_default_confirm_counterexample :
    (menuInit [fallbackEntry]).menu_items = [MenuChoice.menu] ∧
    (menuStep (menuInit [fallbackEntry]) (EzEvent.south true)).chosen = true ∧
    (menuStep (menuInit [fallbackEntry]) (EzEvent.south true)).what_to_display
      = MenuType.default ∧
    (menuStep (menuInit [fallbackEntry]) (EzEvent.south true)).cur_choice = none :=
  ⟨by decide, by decide, by decide, by decide⟩

/-- C2 (amended): the menu loop never exits while the tracked value is the
sentinel — any step or run that sets `chosen` carries over a tracked value
different from the sentinel — but when no decoded entry is a default
candidate the tracked value starts out absent (`none`), not as the
sentinel, so a confirm with a true payload in the initial state terminates
the loop with an absent tracked value (making the final unwrap panic)
rather than switching to the Advanced view. -/
theorem menu_termination_amended :
    (∀ (s : MenuState) (e : EzEvent), s.chosen = false →
      (menuStep s e).chosen = true →
        (menuStep s e).cur_choice = s.cur_choice ∧
          s.cur_choice ≠ some MenuChoice.menu) ∧
    (∀ (evs : List EzEvent) (s : MenuState), s.chosen = false →
      (menuRun s evs).chosen = true →
        (menuRun s evs).cur_choice ≠ some MenuChoice.menu) ∧
    (∀ entries : List Entry, (∀ en ∈ entries, en.display_default = false) →
      (menuInit entries).menu_items = [MenuChoice.menu] ∧
      (menuInit entries).cur_choice = none ∧
      menuStep (menuInit entries) (EzEvent.south true) =
        { menuInit entries with chosen := true }) := by
  refine ⟨menuStep_exit, fun evs s => menuRun_exit evs s, ?_⟩
  intro entries h
  have hfold := menuInit_fold_nodefault entries h ([], [], none)
  refine ⟨by simp [menuInit, hfold], by simp [menuInit, hfold], ?_⟩
  have hcc : (menuInit entries).cur_choice = none := by simp [menuInit, hfold]
  simp [menuStep, hcc]

/-- C2 witness for the amended theorem. -/
theorem menu_termination_amended_witness :
    ((menuStep (menuInit [fallbackEntry]) (EzEvent.south true)).cur_choice =
        (menuInit [fallbackEntry]).cur_choice ∧
      (menuInit [fallbackEntry]).cur_choice ≠ some MenuChoice.menu) ∧
    (menuRun (menuInit [fallbackEntry]) [EzEvent.south true]).cur_choice ≠
      some MenuChoice.menu ∧
    (menuInit [fallbackEntry]).menu_items = [MenuChoice.menu] :=
  ⟨menu_termination_amended.1 (menuInit [fallbackEntry]) (EzEvent.south true)
      (by decide) (by decide),
   menu_termination_amended.2.1 [EzEvent.south true] (menuInit [fallbackEntry])
      (by decide) (by decide),
   (menu_termination_amended.2.2 [fallbackEntry] (by decide)).1⟩

/-- C3: for every device path with at least one file-path node, the
decoded `display_default` flag is decided solely by the last file-path
node (false exactly when its lowercased text contains a marker), and in
particular a real loader followed by `\EFI\Boot\bootx64.efi` ends up
false. -/
theorem classifier_last_file_node_wins :
    (∀ (nodes : List DevNode) (p : String), lastFileNodeText nodes = some p →
      (classifyNodes nodes).2 = !(containsAnyMarker (lowerStr p))) ∧
    (classifyNodes [DevNode.filePathMedia "\\EFI\\ubuntu\\grubx64.efi",
        DevNode.filePathMedia "\\EFI\\Boot\\bootx64.efi"]).2 = false := by
  constructor
  · intro nodes p hp
    unfold classifyNodes
    rw [classifyFold_snd nodes ([], false), hp]
  · decide

/-- C3 witness. -/
theorem classifier_last_file_node_wins_witness :
    (classifyNodes [DevNode.otherNode "Acpi",
        DevNode.filePathMedia "\\EFI\\ubuntu\\grubx64.efi"]).2 =
      !(containsAnyMarker (lowerStr "\\EFI\\ubuntu\\grubx64.efi")) :=
  classifier_last_file_node_wins.1 _ _ (by decide)

/-- C4 (code_bug evidence): the claim says the IA32 fallback loader
`\efi\boot\bootia32.efi` is classified as not default-candidate, but the
source tests for the misspelled marker `\efi\boot\bootia.efi`, so a
`bootia32.efi` file-path node yields `display_default = true`.  The x64
and AArch64 markers and the no-marker case behave as the claim says. -/
theorem classifier_misses_bootia32 :
    (classifyNodes [DevNode.filePathMedia "\\EFI\\Boot\\bootia32.efi"]).2 = true ∧
    (classifyNodes [DevNode.filePathMedia "\\EFI\\Boot\\bootx64.efi"]).2 = false ∧
    (classifyNodes [DevNode.filePathMedia "\\EFI\\Boot\\bootaa64.efi"]).2 = false ∧
    (classifyNodes [DevNode.filePathMedia "\\EFI\\ubuntu\\grubx64.efi"]).2 = true :=
  ⟨by decide, by decide, by decide, by decide⟩

/-- C5: every character of a decoded description is ASCII; an aligned zero
code unit stops decoding (bytes after it are irrelevant, and the units
before it are assembled low byte first); a code-unit sequence that fails
to decode contributes exactly one space at its position; a non-ASCII
character (`0x263A`) and a lone surrogate (`0xD800`) both decode to a
single space. -/
theorem char16_decoding_properties :
    (∀ buf : List Nat, ∀ c ∈ (char16_to_string buf).1.data, c.toNat < 128) ∧
    (∀ us rest : List Nat, (∀ u ∈ us, u ≠ 0 ∧ u < 65536) →
      char16_to_string (unitsToBytes us ++ [0, 0] ++ rest) =
        char16_to_string (unitsToBytes us ++ [0, 0])) ∧
    (∀ (us : List Nat) (i : Nat), (decodeUtf16 us)[i]? = some none →
      (charsOfUnits us)[i]? = some ' ') ∧
    char16_to_string [0x3A, 0x26] = (" ", 4) ∧
    char16_to_string [0x00, 0xD8] = (" ", 4) := by
  refine ⟨?_, ?_, ?_, by decide, by decide⟩
  · intro buf c hc
    exact charsOfUnits_ascii _ c hc
  · intro us rest h
    have e1 : unitsToBytes us ++ [0, 0] ++ rest = unitsToBytes us ++ 0 :: 0 :: rest := by
      simp
    have e2 : unitsToBytes us ++ [0, 0] = unitsToBytes us ++ 0 :: 0 :: ([] : List Nat) := by
      simp
    rw [e1, e2]
    unfold char16_to_string
    rw [collectUnits_enc us rest h, collectUnits_enc us [] h,
      char16Len_enc us rest h, char16Len_enc us [] h]
  · intro us i h
    unfold charsOfUnits
    rw [List.getElem?_map, List.getElem?_map, h]
    decide

/-- C5 witness. -/
theorem char16_decoding_properties_witness :
    Char.toNat 'A' < 128 ∧
    char16_to_string (unitsToBytes [65] ++ [0, 0] ++ [7]) =
      char16_to_string (unitsToBytes [65] ++ [0, 0]) ∧
    (charsOfUnits [0xD800])[0]? = some ' ' :=
  ⟨char16_decoding_properties.1 [65, 0, 7, 7] 'A' (by decide),
   char16_decoding_properties.2.1 [65] [7] (by decide),
   char16_decoding_properties.2.2.1 [0xD800] 0 (by decide)⟩

/-- C6 (code_bug evidence): the claim says the filter accepts exactly
`Boot` + four hex digits, but the source regex `^Boot\d\d\d\d$` only
accepts decimal digits: everything it accepts is of the hex shape, yet
`Boot001A` — of the hex shape, and the example given by the spec — is rejected,
while `Boot0019` is accepted. -/
theorem boot_name_filter_rejects_hex :
    (∀ s : String, boot_xxxx_match s = true → isBootHexName s = true) ∧
    isBootHexName "Boot001A" = true ∧
    boot_xxxx_match "Boot001A" = false ∧
    boot_xxxx_match "Boot0019" = true := by
  refine ⟨?_, by decide, by decide, by decide⟩
  intro s h
  simp only [boot_xxxx_match, Bool.and_eq_true] at h
  obtain ⟨⟨h1, h2⟩, h3⟩ := h
  simp only [isBootHexName, Bool.and_eq_true]
  refine ⟨⟨h1, h2⟩, ?_⟩
  rw [List.all_eq_true] at h3 ⊢
  intro c hc
  have hd := h3 c hc
  simp [hexDigitChar, hd]

/-- C6 witness. -/
theorem boot_name_filter_rejects_hex_witness :
    isBootHexName "Boot0019" = true :=
  boot_name_filter_rejects_hex.1 "Boot0019" (by decide)

/-- C7: a confirm with a true payload terminates the loop keeping the
tracked entry as the result when the tracked value is a real entry, sets
the view to Advanced without terminating when the tracked value is the
sentinel, and a confirm with a false payload is a no-op. -/
theorem menu_confirm_semantics :
    ∀ s : MenuState,
      (∀ en : Entry, s.cur_choice = some (MenuChoice.entry en) →
        menuStep s (EzEvent.south true) = { s with chosen := true }) ∧
      (s.cur_choice = some MenuChoice.menu →
        menuStep s (EzEvent.south true) =
          { s with what_to_display := MenuType.advanced }) ∧
      menuStep s (EzEvent.south false) = s := by
  intro s
  refine ⟨?_, ?_, ?_⟩
  · intro en h
    simp [menuStep, h]
  · intro h
    simp [menuStep, h]
  · simp [menuStep]

/-- C7 witness. -/
theorem menu_confirm_semantics_witness :
    menuStep demoInitState (EzEvent.south true) =
      { demoInitState with chosen := true } ∧
    menuStep demoSentinelState (EzEvent.south true) =
      { demoSentinelState with what_to_display := MenuType.advanced } ∧
    menuStep demoInitState (EzEvent.south false) = demoInitState :=
  ⟨(menu_confirm_semantics demoInitState).1 ubuntuEntry (by decide),
   (menu_confirm_semantics demoSentinelState).2.1 (by decide),
   (menu_confirm_semantics demoInitState).2.2⟩

/-- C8: a move down advances the cursor and re-tracks the row at
`pos + 1` exactly when that row exists (no wraparound), a move up
symmetrically for `pos - 1` when `pos > 0`, and from cursor 0 of the
3-row default view two moves down followed by one move up land on row 1
with the tracked value equal to that row. -/
theorem menu_move_semantics :
    (∀ s : MenuState,
      (∀ c : MenuChoice, (curMenu s)[s.pos + 1]? = some c →
        menuStep s EzEvent.directionDown =
          { s with pos := s.pos + 1, cur_choice := some c }) ∧
      ((curMenu s)[s.pos + 1]? = none → menuStep s EzEvent.directionDown = s) ∧
      (∀ c : MenuChoice, 0 < s.pos → (curMenu s)[s.pos - 1]? = some c →
        menuStep s EzEvent.directionUp =
          { s with pos := s.pos - 1, cur_choice := some c }) ∧
      (s.pos = 0 ∨ (curMenu s)[s.pos - 1]? = none →
        menuStep s EzEvent.directionUp = s)) ∧
    (menuRun demoInitState
      [EzEvent.directionDown, EzEvent.directionDown, EzEvent.directionUp]).pos = 1 ∧
    (menuRun demoInitState
      [EzEvent.directionDown, EzEvent.directionDown, EzEvent.directionUp]).cur_choice =
      demoInitState.menu_items[1]? := by
  refine ⟨?_, by decide, by decide⟩
  intro s
  refine ⟨?_, ?_, ?_, ?_⟩
  · intro c h
    simp [menuStep, h]
  · intro h
    simp [menuStep, h]
  · intro c hp h
    simp [menuStep, hp, h]
  · intro h
    rcases h with h | h
    · simp [menuStep, h]
    · by_cases hp : 0 < s.pos
      · simp [menuStep, hp, h]
      · simp [menuStep, hp]

/-- C8 witness. -/
theorem menu_move_semantics_witness :
    menuStep demoInitState EzEvent.directionDown =
      { demoInitState with pos := 1, cur_choice := some (MenuChoice.entry fedoraEntry) } ∧
    menuStep demoInitState EzEvent.directionUp = demoInitState :=
  ⟨(menu_move_semantics.1 demoInitState).1 (MenuChoice.entry fedoraEntry) (by decide),
   (menu_move_semantics.1 demoInitState).2.2.2 (Or.inl (by decide))⟩

/-- C9: a confirm with a true payload on the sentinel row switches the
view to Advanced and changes nothing else: cursor, tracked value,
`chosen`, and both row lists are carried over unchanged. -/
theorem menu_sentinel_confirm_frame :
    ∀ s : MenuState, s.cur_choice = some MenuChoice.menu →
      (menuStep s (EzEvent.south true)).what_to_display = MenuType.advanced ∧
      (menuStep s (EzEvent.south true)).pos = s.pos ∧
      (menuStep s (EzEvent.south true)).cur_choice = s.cur_choice ∧
      (menuStep s (EzEvent.south true)).chosen = s.chosen ∧
      (menuStep s (EzEvent.south true)).menu_items = s.menu_items ∧
      (menuStep s (EzEvent.south true)).all_items = s.all_items := by
  intro s h
  have hs : menuStep s (EzEvent.south true) =
      { s with what_to_display := MenuType.advanced } := by
    simp [menuStep, h]
  rw [hs]
  simp

/-- C9 witness. -/
theorem menu_sentinel_confirm_frame_witness :
    (menuStep demoSentinelState (EzEvent.south true)).what_to_display =
      MenuType.advanced ∧
    (menuStep demoSentinelState (EzEvent.south true)).pos = demoSentinelState.pos ∧
    (menuStep demoSentinelState (EzEvent.south true)).cur_choice =
      demoSentinelState.cur_choice :=
  ⟨(menu_sentinel_confirm_frame demoSentinelState (by decide)).1,
   (menu_sentinel_confirm_frame demoSentinelState (by decide)).2.1,
   (menu_sentinel_confirm_frame demoSentinelState (by decide)).2.2.1⟩

/-- C10: for an 8-character variable name the decoder keeps the suffix
after the 4-character prefix as `id_string` verbatim and parses it in
base 16 for `id`, defaulting to 0 on parse failure; `Boot001A` yields
`(0x1A, "001A")` and `BootZZZZ` yields `(0, "ZZZZ")`. -/
theorem id_extraction_semantics :
    (∀ var : String, var.data.length = 8 →
      (∀ n : Nat, u16FromStrRadix16 ⟨var.data.drop 4⟩ = some n →
        extract_id var = some (n, ⟨var.data.drop 4⟩)) ∧
      (u16FromStrRadix16 ⟨var.data.drop 4⟩ = none →
        extract_id var = some (0, ⟨var.data.drop 4⟩))) ∧
    extract_id "Boot001A" = some (26, "001A") ∧
    extract_id "BootZZZZ" = some (0, "ZZZZ") := by
  refine ⟨?_, by decide, by decide⟩
  intro var h8
  have hlen : 4 ≤ var.length := by
    simp only [String.length]
    omega
  constructor
  · intro n hn
    simp [extract_id, hlen, hn]
  · intro hn
    simp [extract_id, hlen, hn]

/-- C10 witness. -/
theorem id_extraction_semantics_witness :
    extract_id "Boot001A" = some (26, (⟨"Boot001A".data.drop 4⟩ : String)) ∧
    extract_id "BootZZZZ" = some (0, (⟨"BootZZZZ".data.drop 4⟩ : String)) :=
  ⟨(id_extraction_semantics.1 "Boot001A" (by decide)).1 26 (by decide),
   (id_extraction_semantics.1 "BootZZZZ" (by decide)).2 (by decide)⟩
